import Mathlib

/-
Verification of the nested-dictionary wrapper (src/main.py).

The embedding models Python dictionaries through an explicit heap: a dict
object is an address (`Nat`) into a `Heap`, and a `Value.ref a` is a Python
reference to the dict stored at address `a`.  This makes reference identity
(aliasing, "no copy is made") directly expressible: two references are the
same object exactly when their addresses are equal, and a mutation through
one reference is an update of the heap cell both point to.

`DataNode` embeds the Python class `DataNode`: its single field `_data`
holds whatever Python stored in `self._data` (normally a dict reference,
but `DataNode(100)` in the source stores the bare value 100).  `Data`
embeds the Python class `Data` with its two `__dict__` slots `_data` and
`_default_values`.

Each dunder method of the source becomes one Lean function.  Methods that
mutate (`__setattr__`, `__delattr__`, default materialization inside
`__getattr__`/`__getitem__`) return the updated heap.  Python exceptions
become `Except PyErr`:  `AttributeError` / `KeyError` as in the source, and
`typeError` for the implicit `TypeError` Python raises when `self._data`
is not a dict and the code applies `in` / indexing / `del` to it.
-/

namespace PyData

/-- Scalar (non-dict) Python values appearing in the program: `None`,
strings, integers, and floats (floats only occur as literals in the demo
data; they are carried as an opaque pair numerator/denominator-free tag is
unnecessary, a rational-free marker string suffices for distinctness). -/
inductive Prim where
  | none : Prim
  | str : String → Prim
  | int : Int → Prim
  | float : String → Prim
deriving DecidableEq, Repr

/-- A Python value: either a scalar or a reference to a dict on the heap. -/
inductive Value where
  | prim : Prim → Value
  | ref : Nat → Value
deriving DecidableEq, Repr

/-- A Python dict object: an ordered association list with unique keys
(insertion order preserved, as in Python). -/
abbrev Dict := List (String × Value)

/-- The heap of dict objects; the address of a dict is its index. -/
abbrev Heap := List Dict

/-- `d[k]` lookup: first (unique) entry with key `k`. -/
def dictGet : Dict → String → Option Value
  | [], _ => none
  | (k, v) :: rest, key => if k = key then some v else dictGet rest key

/-- Python `key in d`. -/
def dictMem (d : Dict) (k : String) : Bool :=
  (dictGet d k).isSome

/-- Python `d[k] = v`: overwrite in place keeping position, else append
(Python 3.7+ dict semantics). -/
def dictSet : Dict → String → Value → Dict
  | [], key, v => [(key, v)]
  | (k, w) :: rest, key, v =>
    if k = key then (k, v) :: rest else (k, w) :: dictSet rest key v

/-- Python `del d[k]` (caller guarantees presence in the source). -/
def dictDel : Dict → String → Dict
  | [], _ => []
  | (k, w) :: rest, key => if k = key then rest else (k, w) :: dictDel rest key

/-- Read the dict object at address `a`. -/
def heapGet (H : Heap) (a : Nat) : Option Dict :=
  H[a]?

/-- Overwrite the dict object at address `a` (an in-place dict mutation). -/
def heapSet (H : Heap) (a : Nat) (d : Dict) : Heap :=
  H.set a d

/-- Allocate a fresh dict object; returns its address and the new heap. -/
def heapAlloc (H : Heap) (d : Dict) : Nat × Heap :=
  (H.length, H ++ [d])

/-- Python exceptions raised by the source: `AttributeError`, `KeyError`,
and the implicit `TypeError` when `self._data` is not a dict. -/
inductive PyErr where
  | attributeError : PyErr
  | keyError : PyErr
  | typeError : PyErr
deriving DecidableEq, Repr

/-- The Python class `DataNode` (src/main.py lines 1-116): `self._data`
is whatever the constructor stored (normally a dict reference). -/
structure DataNode where
  _data : Value
deriving DecidableEq, Repr

/-- The result of a Python get: either a bare value returned as-is, or a
freshly constructed `DataNode` object. -/
inductive PyVal where
  | raw : Value → PyVal
  | node : DataNode → PyVal
deriving DecidableEq, Repr

/-- `DataNode.__init__` (lines 7-14): `self._data = data if data is not
None else {}`; passing `None` allocates a fresh empty dict. -/
def DataNode.init (data : Value) (H : Heap) : DataNode × Heap :=
  if data = Value.prim Prim.none then
    let (a, H') := heapAlloc H []
    (⟨Value.ref a⟩, H')
  else
    (⟨data⟩, H)

/-- `DataNode.__getattr__` (lines 16-37): if `item` is a key of the dict,
return the value, wrapped in a new `DataNode` when it is itself a dict;
otherwise return `None`.  A non-dict `self._data` makes `item in
self._data` raise `TypeError` (modelled uniformly; the source never
reaches this with a well-formed node). -/
def DataNode.getattr (n : DataNode) (H : Heap) (item : String) :
    Except PyErr PyVal :=
  match n._data with
  | Value.ref a =>
    match heapGet H a with
    | some d =>
      match dictGet d item with
      | some value =>
        match value with
        | Value.ref _ => .ok (.node ⟨value⟩)
        | _ => .ok (.raw value)
      | none => .ok (.raw (Value.prim Prim.none))
    | none => .error .typeError
  | _ => .error .typeError

/-- `DataNode.__getitem__` (lines 66-87): same as attribute access except
that a missing key raises `KeyError`. -/
def DataNode.getitem (n : DataNode) (H : Heap) (item : String) :
    Except PyErr PyVal :=
  match n._data with
  | Value.ref a =>
    match heapGet H a with
    | some d =>
      match dictGet d item with
      | some value =>
        match value with
        | Value.ref _ => .ok (.node ⟨value⟩)
        | _ => .ok (.raw value)
      | none => .error .keyError
    | none => .error .typeError
  | _ => .error .typeError

/-- `DataNode.__setattr__` (lines 39-54): `_data` itself goes to
`self.__dict__`; every other name is written into the backing dict. -/
def DataNode.setattr (n : DataNode) (H : Heap) (key : String) (value : Value) :
    Except PyErr (DataNode × Heap) :=
  if key = "_data" then
    .ok (⟨value⟩, H)
  else
    match n._data with
    | Value.ref a =>
      match heapGet H a with
      | some d => .ok (n, heapSet H a (dictSet d key value))
      | none => .error .typeError
    | _ => .error .typeError

/-- `DataNode.__setitem__` (lines 89-97): unconditional write into the
backing dict. -/
def DataNode.setitem (n : DataNode) (H : Heap) (key : String) (value : Value) :
    Except PyErr (DataNode × Heap) :=
  match n._data with
  | Value.ref a =>
    match heapGet H a with
    | some d => .ok (n, heapSet H a (dictSet d key value))
    | none => .error .typeError
  | _ => .error .typeError

/-- `DataNode.__delattr__` (lines 56-64): delete if present, silently do
nothing otherwise. -/
def DataNode.delattr (n : DataNode) (H : Heap) (item : String) :
    Except PyErr Heap :=
  match n._data with
  | Value.ref a =>
    match heapGet H a with
    | some d =>
      if dictMem d item then .ok (heapSet H a (dictDel d item)) else .ok H
    | none => .error .typeError
  | _ => .error .typeError

/-- `DataNode.__delitem__` (lines 99-107): identical body to
`__delattr__` in the source. -/
def DataNode.delitem (n : DataNode) (H : Heap) (item : String) :
    Except PyErr Heap :=
  match n._data with
  | Value.ref a =>
    match heapGet H a with
    | some d =>
      if dictMem d item then .ok (heapSet H a (dictDel d item)) else .ok H
    | none => .error .typeError
  | _ => .error .typeError

/-- `DataNode.to_dict` (lines 109-116): returns `self._data` itself, the
live reference, not a copy. -/
def DataNode.to_dict (n : DataNode) : Value :=
  n._data

/-- The Python class `Data` (lines 119-274): `__dict__` slots `_data` and
`_default_values`. -/
structure Data where
  _data : Value
  _default_values : Value
deriving DecidableEq, Repr

/-- `Data.__init__` (lines 125-137): `self._data = kwargs.get("data", {})`
and `self._default_values = kwargs.get("default_values", {})`.  Every
other keyword argument is ignored.  The default `{}` allocates a fresh
empty dict (modelled only when actually used; an unused discarded literal
is unobservable). -/
def Data.init (kwargs : Dict) (H : Heap) : Data × Heap :=
  let (dSlot, H1) :=
    match dictGet kwargs "data" with
    | some v => (v, H)
    | none =>
      let (a, H') := heapAlloc H []
      (Value.ref a, H')
  let (dvSlot, H2) :=
    match dictGet kwargs "default_values" with
    | some v => (v, H1)
    | none =>
      let (a, H') := heapAlloc H1 []
      (Value.ref a, H')
  (⟨dSlot, dvSlot⟩, H2)

/-- `Data.from_dict` (lines 139-150): `cls(data=data)`. -/
def Data.from_dict (data : Value) (H : Heap) : Data × Heap :=
  Data.init [("data", data)] H

/-- `Data.__getattr__` (lines 152-179): (1) backing dict, wrapped when a
dict; (2) defaults: `self._data[item] = default_value` then `return
DataNode(default_value)` — note the unconditional wrapping; (3)
`AttributeError`. -/
def Data.getattr (s : Data) (H : Heap) (item : String) :
    Except PyErr (PyVal × Heap) :=
  match s._data with
  | Value.ref a =>
    match heapGet H a with
    | some d =>
      match dictGet d item with
      | some value =>
        match value with
        | Value.ref _ => .ok (.node ⟨value⟩, H)
        | _ => .ok (.raw value, H)
      | none =>
        match s._default_values with
        | Value.ref da =>
          match heapGet H da with
          | some dv =>
            match dictGet dv item with
            | some default_value =>
              let H' := heapSet H a (dictSet d item default_value)
              let (nd, H'') := DataNode.init default_value H'
              .ok (.node nd, H'')
            | none => .error .attributeError
          | none => .error .typeError
        | _ => .error .typeError
    | none => .error .typeError
  | _ => .error .typeError

/-- `Data.__getitem__` (lines 213-240): same as `__getattr__` except the
final miss raises `KeyError`. -/
def Data.getitem (s : Data) (H : Heap) (item : String) :
    Except PyErr (PyVal × Heap) :=
  match s._data with
  | Value.ref a =>
    match heapGet H a with
    | some d =>
      match dictGet d item with
      | some value =>
        match value with
        | Value.ref _ => .ok (.node ⟨value⟩, H)
        | _ => .ok (.raw value, H)
      | none =>
        match s._default_values with
        | Value.ref da =>
          match heapGet H da with
          | some dv =>
            match dictGet dv item with
            | some default_value =>
              let H' := heapSet H a (dictSet d item default_value)
              let (nd, H'') := DataNode.init default_value H'
              .ok (.node nd, H'')
            | none => .error .keyError
          | none => .error .typeError
        | _ => .error .typeError
    | none => .error .typeError
  | _ => .error .typeError

/-- `Data.__setattr__` (lines 181-196): `_data` and `_default_values`
route to `self.__dict__`; every other name is written into the backing
dict. -/
def Data.setattr (s : Data) (H : Heap) (key : String) (value : Value) :
    Except PyErr (Data × Heap) :=
  if key = "_data" then
    .ok ({ s with _data := value }, H)
  else if key = "_default_values" then
    .ok ({ s with _default_values := value }, H)
  else
    match s._data with
    | Value.ref a =>
      match heapGet H a with
      | some d => .ok (s, heapSet H a (dictSet d key value))
      | none => .error .typeError
    | _ => .error .typeError

/-- `Data.__setitem__` (lines 242-250): unconditional write into the
backing dict (no reserved-name check). -/
def Data.setitem (s : Data) (H : Heap) (key : String) (value : Value) :
    Except PyErr (Data × Heap) :=
  match s._data with
  | Value.ref a =>
    match heapGet H a with
    | some d => .ok (s, heapSet H a (dictSet d key value))
    | none => .error .typeError
  | _ => .error .typeError

/-- `Data.__delattr__` (lines 198-211): delete if present, else
`AttributeError`. -/
def Data.delattr (s : Data) (H : Heap) (item : String) : Except PyErr Heap :=
  match s._data with
  | Value.ref a =>
    match heapGet H a with
    | some d =>
      if dictMem d item then .ok (heapSet H a (dictDel d item))
      else .error .attributeError
    | none => .error .typeError
  | _ => .error .typeError

/-- `Data.__delitem__` (lines 252-265): delete if present, else
`KeyError`. -/
def Data.delitem (s : Data) (H : Heap) (item : String) : Except PyErr Heap :=
  match s._data with
  | Value.ref a =>
    match heapGet H a with
    | some d =>
      if dictMem d item then .ok (heapSet H a (dictDel d item))
      else .error .keyError
    | none => .error .typeError
  | _ => .error .typeError

/-- `Data.to_dict` (lines 267-274): returns `self._data` itself. -/
def Data.to_dict (s : Data) : Value :=
  s._data

/-! Concrete states used to evaluate the operations: a root whose backing
dict lives at address 0 and whose defaults dict lives at address 1. -/

/-- The scalar value `100`. -/
def v100 : Value := Value.prim (Prim.int 100)

/-- Heap for the defaults scenario: empty backing dict at address 0,
defaults dict `{"height": 100}` at address 1. -/
def exH0 : Heap := [[], [("height", v100)]]

/-- Heap after materializing the `height` default into the backing dict. -/
def exH1 : Heap := [[("height", v100)], [("height", v100)]]

/-- The root object: backing dict at address 0, defaults at address 1. -/
def exRoot : Data := ⟨Value.ref 0, Value.ref 1⟩

/-! ## Claims -/

/-- Claim C1.  The code does NOT return a non-mapping default as-is: on a
default hit it executes `return DataNode(default_value)` unconditionally
(src/main.py lines 177 and 238), so with defaults `{"height": 100}` and an
empty backing dict, `get("height")` (both forms) copies `100` into the
backing dict but returns `DataNode(100)` — a wrapper object — rather than
the bare `100` that a Leaf Wrapper read of the materialized entry would
produce. -/
theorem claim_C1_default_wrapped_not_raw :
    Data.getattr exRoot exH0 "height" = .ok (.node ⟨v100⟩, exH1) ∧
    Data.getitem exRoot exH0 "height" = .ok (.node ⟨v100⟩, exH1) ∧
    PyVal.node ⟨v100⟩ ≠ PyVal.raw v100 ∧
    DataNode.getattr ⟨Value.ref 0⟩ exH1 "height" = .ok (.raw v100) :=
  ⟨rfl, rfl, by decide, rfl⟩

/-- Claim C2.  With defaults `{"height": 100}` and an empty backing dict:
the first `get("height")` returns `DataNode(100)` — not the bare `100`
the claim states — while the side effect holds (`export()["height"] ==
100`); a second `get("height")` returns the bare `100` from the backing
dict and is insensitive to the defaults dict (same result after the
defaults dict is emptied). -/
theorem claim_C2_first_get_wrapped :
    Data.getattr exRoot exH0 "height" = .ok (.node ⟨v100⟩, exH1) ∧
    PyVal.node ⟨v100⟩ ≠ PyVal.raw v100 ∧
    Data.to_dict exRoot = Value.ref 0 ∧
    heapGet exH1 0 = some [("height", v100)] ∧
    dictGet [("height", v100)] "height" = some v100 ∧
    Data.getattr exRoot exH1 "height" = .ok (.raw v100, exH1) ∧
    Data.getattr exRoot (heapSet exH1 1 []) "height"
      = .ok (.raw v100, heapSet exH1 1 []) :=
  ⟨rfl, by decide, rfl, rfl, rfl, rfl, rfl⟩

/-- Claim C3.  `Data.__init__` reads only the keyword arguments `data` and
`default_values` (src/main.py lines 136-137); any other named field is
silently dropped, so `Data(name="my")` has an empty backing dict and a
subsequent get of `name` raises instead of returning `"my"`. -/
theorem claim_C3_named_fields_dropped :
    Data.init [("name", Value.prim (Prim.str "my"))] []
      = (⟨Value.ref 0, Value.ref 1⟩, [[], []]) ∧
    Data.getattr ⟨Value.ref 0, Value.ref 1⟩ [[], []] "name"
      = .error .attributeError ∧
    Data.getitem ⟨Value.ref 0, Value.ref 1⟩ [[], []] "name"
      = .error .keyError :=
  ⟨rfl, rfl, rfl⟩

/-- Claim C4.  Leaf Wrapper reads: for a key absent from the backing dict,
item access raises `KeyError` while attribute access returns `None` (the
absent sentinel); for a key present with a non-dict value, both forms
return the value as-is. -/
theorem claim_C4_leaf_get_asymmetry (H : Heap) (a : Nat) (d : Dict)
    (k : String) (hH : heapGet H a = some d) :
    (dictGet d k = none →
      DataNode.getitem ⟨Value.ref a⟩ H k = .error .keyError ∧
      DataNode.getattr ⟨Value.ref a⟩ H k = .ok (.raw (Value.prim Prim.none))) ∧
    (∀ p : Prim, dictGet d k = some (Value.prim p) →
      DataNode.getattr ⟨Value.ref a⟩ H k = .ok (.raw (Value.prim p)) ∧
      DataNode.getitem ⟨Value.ref a⟩ H k = .ok (.raw (Value.prim p))) := by
  constructor
  · intro h
    constructor <;> simp [DataNode.getitem, DataNode.getattr, hH, h]
  · intro p h
    constructor <;> simp [DataNode.getattr, DataNode.getitem, hH, h]

/-- Witness for C4 on the dict `{"x": 1}`: key `"y"` is absent, key `"x"`
holds the non-dict value `1`. -/
theorem claim_C4_witness :
    DataNode.getitem ⟨Value.ref 0⟩ [[("x", Value.prim (Prim.int 1))]] "y"
      = .error .keyError ∧
    DataNode.getattr ⟨Value.ref 0⟩ [[("x", Value.prim (Prim.int 1))]] "y"
      = .ok (.raw (Value.prim Prim.none)) ∧
    DataNode.getattr ⟨Value.ref 0⟩ [[("x", Value.prim (Prim.int 1))]] "x"
      = .ok (.raw (Value.prim (Prim.int 1))) ∧
    DataNode.getitem ⟨Value.ref 0⟩ [[("x", Value.prim (Prim.int 1))]] "x"
      = .ok (.raw (Value.prim (Prim.int 1))) := by
  have h1 := claim_C4_leaf_get_asymmetry [[("x", Value.prim (Prim.int 1))]] 0
    [("x", Value.prim (Prim.int 1))] "y" rfl
  have h2 := claim_C4_leaf_get_asymmetry [[("x", Value.prim (Prim.int 1))]] 0
    [("x", Value.prim (Prim.int 1))] "x" rfl
  exact ⟨(h1.1 rfl).1, (h1.1 rfl).2, (h2.2 (Prim.int 1) rfl).1,
         (h2.2 (Prim.int 1) rfl).2⟩

/-- Claim C5.  Root Container reads for a key absent from both the backing
dict and the defaults dict: attribute access raises `AttributeError`
(src/main.py line 179) and item access raises `KeyError` (line 240) — the
strict-error behavior. -/
theorem claim_C5_root_strict_miss (H : Heap) (a da : Nat) (d dv : Dict)
    (k : String) (h2 : heapGet H a = some d) (h4 : heapGet H da = some dv)
    (h5 : dictGet d k = none) (h6 : dictGet dv k = none) :
    Data.getattr ⟨Value.ref a, Value.ref da⟩ H k = .error .attributeError ∧
    Data.getitem ⟨Value.ref a, Value.ref da⟩ H k = .error .keyError := by
  constructor <;> simp [Data.getattr, Data.getitem, h2, h4, h5, h6]

/-- Witness for C5: both dicts empty, key `"z"`. -/
theorem claim_C5_witness :
    Data.getattr ⟨Value.ref 0, Value.ref 1⟩ [[], []] "z"
      = .error .attributeError ∧
    Data.getitem ⟨Value.ref 0, Value.ref 1⟩ [[], []] "z"
      = .error .keyError :=
  claim_C5_root_strict_miss [[], []] 0 1 [] [] "z" rfl rfl rfl rfl

/-- Claim C6.  Deletion asymmetry for an absent key: Leaf Wrapper delete
(attribute and item form) is a silent no-op returning the heap unchanged —
so repeating it from the same state yields the same unchanged heap and
never raises — while Root Container delete raises `AttributeError`
(attribute form) or `KeyError` (item form); the error path performs no
mutation, so it raises every time. -/
theorem claim_C6_delete_asymmetry (H : Heap) (a : Nat) (d : Dict)
    (dvSlot : Value) (k : String) (hH : heapGet H a = some d)
    (habs : dictGet d k = none) :
    DataNode.delattr ⟨Value.ref a⟩ H k = .ok H ∧
    DataNode.delitem ⟨Value.ref a⟩ H k = .ok H ∧
    Data.delattr ⟨Value.ref a, dvSlot⟩ H k = .error .attributeError ∧
    Data.delitem ⟨Value.ref a, dvSlot⟩ H k = .error .keyError := by
  refine ⟨?_, ?_, ?_, ?_⟩ <;>
    simp [DataNode.delattr, DataNode.delitem, Data.delattr, Data.delitem,
      dictMem, hH, habs]

/-- Witness for C6: backing dict `{"x": 1}`, absent key `"y"`. -/
theorem claim_C6_witness :
    DataNode.delattr ⟨Value.ref 0⟩ [[("x", Value.prim (Prim.int 1))]] "y"
      = .ok [[("x", Value.prim (Prim.int 1))]] ∧
    DataNode.delitem ⟨Value.ref 0⟩ [[("x", Value.prim (Prim.int 1))]] "y"
      = .ok [[("x", Value.prim (Prim.int 1))]] ∧
    Data.delattr ⟨Value.ref 0, Value.ref 0⟩ [[("x", Value.prim (Prim.int 1))]] "y"
      = .error .attributeError ∧
    Data.delitem ⟨Value.ref 0, Value.ref 0⟩ [[("x", Value.prim (Prim.int 1))]] "y"
      = .error .keyError :=
  claim_C6_delete_asymmetry [[("x", Value.prim (Prim.int 1))]] 0
    [("x", Value.prim (Prim.int 1))] (Value.ref 0) "y" rfl rfl

/-- Claim C7.  `Data.from_dict(d).to_dict()` returns the very reference
`d` that was passed in (same address, hence the same mapping object, not a
copy), and the only heap effect of construction is allocating the fresh
empty defaults dict at the end of the heap — every existing dict object,
in particular the one `d` refers to, is untouched. -/
theorem claim_C7_from_dict_roundtrip (v : Value) (H : Heap) :
    ((Data.from_dict v H).1).to_dict = v ∧
    (Data.from_dict v H).2 = H ++ [[]] :=
  ⟨rfl, rfl⟩

/-- Claim C8.  Reading a key whose value is a dict returns a fresh
`DataNode` holding the very same reference (`export()` is the address `b`
stored in the parent dict, no copy); writing through that nested wrapper
updates the shared dict object at `b`, which the parent's backing dict
still points to — so the mutation is visible through the parent's
`export()` (and any access path to `b`). -/
theorem claim_C8_nested_shared_reference (H : Heap) (a b : Nat) (m mb : Dict)
    (k : String) (hm : heapGet H a = some m)
    (hk : dictGet m k = some (Value.ref b)) (hb : heapGet H b = some mb)
    (hab : a ≠ b) :
    DataNode.getattr ⟨Value.ref a⟩ H k = .ok (.node ⟨Value.ref b⟩) ∧
    DataNode.getitem ⟨Value.ref a⟩ H k = .ok (.node ⟨Value.ref b⟩) ∧
    DataNode.to_dict ⟨Value.ref b⟩ = Value.ref b ∧
    ∀ (key : String) (v : Value), key ≠ "_data" →
      DataNode.setattr ⟨Value.ref b⟩ H key v
        = .ok (⟨Value.ref b⟩, heapSet H b (dictSet mb key v)) ∧
      heapGet (heapSet H b (dictSet mb key v)) a = some m ∧
      heapGet (heapSet H b (dictSet mb key v)) b = some (dictSet mb key v) := by
  refine ⟨?_, ?_, rfl, ?_⟩
  · simp [DataNode.getattr, hm, hk]
  · simp [DataNode.getitem, hm, hk]
  · intro key v hkey
    have hb0 : H[b]? = some mb := hb
    have hblt : b < H.length := (List.getElem?_eq_some.mp hb0).1
    refine ⟨?_, ?_, ?_⟩
    · simp [DataNode.setattr, hkey, hb]
    · simpa [heapGet, heapSet, List.getElem?_set_ne (Ne.symm hab)] using hm
    · simp [heapGet, heapSet, List.getElem?_set_eq_of_lt _ hblt]

/-- Witness for C8: parent dict `{"child": ref 1}` at address 0, child
dict `{"size": 10}` at address 1; write `height := 100` through the
nested wrapper. -/
theorem claim_C8_witness :
    DataNode.getattr ⟨Value.ref 0⟩
      [[("child", Value.ref 1)], [("size", Value.prim (Prim.int 10))]] "child"
      = .ok (.node ⟨Value.ref 1⟩) ∧
    DataNode.setattr ⟨Value.ref 1⟩
      [[("child", Value.ref 1)], [("size", Value.prim (Prim.int 10))]]
      "height" v100
      = .ok (⟨Value.ref 1⟩,
          [[("child", Value.ref 1)],
           [("size", Value.prim (Prim.int 10)), ("height", v100)]]) ∧
    heapGet [[("child", Value.ref 1)],
             [("size", Value.prim (Prim.int 10)), ("height", v100)]] 0
      = some [("child", Value.ref 1)] := by
  have h := claim_C8_nested_shared_reference
    [[("child", Value.ref 1)], [("size", Value.prim (Prim.int 10))]] 0 1
    [("child", Value.ref 1)] [("size", Value.prim (Prim.int 10))] "child"
    rfl rfl rfl (by decide)
  have h2 := h.2.2.2 "height" v100 (by decide)
  exact ⟨h.1, h2.1, h2.2.1⟩

/-- Claim C9.  `Data.__setattr__` routing: any name other than the two
reserved internal names `_data` and `_default_values` is written into the
backing dict (heap mutation at the backing address, the object's slots
unchanged); the reserved names themselves are written into the object's
`__dict__` slots, leaving the heap (and hence the backing dict) unchanged. -/
theorem claim_C9_setattr_routing (s : Data) (H : Heap) (a : Nat) (d : Dict)
    (key : String) (v : Value) (h1 : s._data = Value.ref a)
    (h2 : heapGet H a = some d) :
    (key ≠ "_data" → key ≠ "_default_values" →
      Data.setattr s H key v = .ok (s, heapSet H a (dictSet d key v))) ∧
    Data.setattr s H "_data" v = .ok (⟨v, s._default_values⟩, H) ∧
    Data.setattr s H "_default_values" v = .ok (⟨s._data, v⟩, H) := by
  refine ⟨fun hk1 hk2 => ?_, rfl, rfl⟩
  simp [Data.setattr, hk1, hk2, h1, h2]

/-- Witness for C9: root with backing dict `{}` at address 0; setting
`name` writes into the backing dict, setting `_data` replaces the slot. -/
theorem claim_C9_witness :
    Data.setattr ⟨Value.ref 0, Value.ref 1⟩ [[], []] "name"
      (Value.prim (Prim.str "my"))
      = .ok (⟨Value.ref 0, Value.ref 1⟩,
             [[("name", Value.prim (Prim.str "my"))], []]) ∧
    Data.setattr ⟨Value.ref 0, Value.ref 1⟩ [[], []] "_data" v100
      = .ok (⟨v100, Value.ref 1⟩, [[], []]) ∧
    Data.setattr ⟨Value.ref 0, Value.ref 1⟩ [[], []] "_default_values" v100
      = .ok (⟨Value.ref 0, v100⟩, [[], []]) := by
  have h := claim_C9_setattr_routing ⟨Value.ref 0, Value.ref 1⟩ [[], []] 0 []
    "name" (Value.prim (Prim.str "my")) rfl rfl
  have h' := claim_C9_setattr_routing ⟨Value.ref 0, Value.ref 1⟩ [[], []] 0 []
    "x" v100 rfl rfl
  exact ⟨h.1 (by decide) (by decide), h'.2.1, h'.2.2⟩

/-- Claim C10.  Default materialization is a reference assignment: with
defaults entry `k ↦ ref b` (a dict object at address `b`), `get(k)` stores
exactly `ref b` into the backing dict and returns `DataNode(ref b)`; the
defaults dict is unchanged and still holds `k ↦ ref b`, so a later write
through the returned wrapper mutates the shared object at `b` and is
observable through the defaults dict's entry for `k` as well. -/
theorem claim_C10_default_materialization_aliases (H : Heap) (a da b : Nat)
    (d dv mb : Dict) (k : String)
    (h2 : heapGet H a = some d) (h4 : heapGet H da = some dv)
    (h5 : dictGet d k = none) (h6 : dictGet dv k = some (Value.ref b))
    (hb : heapGet H b = some mb)
    (hba : b ≠ a) (hda : da ≠ a) (hdb : da ≠ b) :
    Data.getattr ⟨Value.ref a, Value.ref da⟩ H k
      = .ok (.node ⟨Value.ref b⟩, heapSet H a (dictSet d k (Value.ref b))) ∧
    Data.getitem ⟨Value.ref a, Value.ref da⟩ H k
      = .ok (.node ⟨Value.ref b⟩, heapSet H a (dictSet d k (Value.ref b))) ∧
    heapGet (heapSet H a (dictSet d k (Value.ref b))) da = some dv ∧
    ∀ (key : String) (v : Value), key ≠ "_data" →
      DataNode.setattr ⟨Value.ref b⟩
          (heapSet H a (dictSet d k (Value.ref b))) key v
        = .ok (⟨Value.ref b⟩,
            heapSet (heapSet H a (dictSet d k (Value.ref b))) b
              (dictSet mb key v)) ∧
      heapGet (heapSet (heapSet H a (dictSet d k (Value.ref b))) b
          (dictSet mb key v)) da = some dv ∧
      heapGet (heapSet (heapSet H a (dictSet d k (Value.ref b))) b
          (dictSet mb key v)) b = some (dictSet mb key v) := by
  have hb0 : H[b]? = some mb := hb
  have hblt : b < H.length := (List.getElem?_eq_some.mp hb0).1
  have hb' : heapGet (heapSet H a (dictSet d k (Value.ref b))) b = some mb := by
    simpa [heapGet, heapSet, List.getElem?_set_ne (Ne.symm hba)] using hb
  refine ⟨?_, ?_, ?_, ?_⟩
  · simp [Data.getattr, DataNode.init, h2, h4, h5, h6, heapAlloc]
  · simp [Data.getitem, DataNode.init, h2, h4, h5, h6, heapAlloc]
  · simpa [heapGet, heapSet, List.getElem?_set_ne (Ne.symm hda)] using h4
  · intro key v hkey
    refine ⟨?_, ?_, ?_⟩
    · simp [DataNode.setattr, hkey, hb']
    · simpa [heapGet, heapSet, List.getElem?_set_ne (Ne.symm hdb),
        List.getElem?_set_ne (Ne.symm hda)] using h4
    · have hlen : b < (List.set H a (dictSet d k (Value.ref b))).length := by
        simpa using hblt
      simp [heapGet, heapSet, List.getElem?_set_eq_of_lt _ hlen]

/-- Witness for C10: backing dict `{}` at 0, defaults `{"cfg": ref 2}`
at 1, default dict object `{"size": 1}` at 2; after materializing `cfg`,
write `height := 100` through the returned wrapper. -/
theorem claim_C10_witness :
    Data.getattr ⟨Value.ref 0, Value.ref 1⟩
      [[], [("cfg", Value.ref 2)], [("size", Value.prim (Prim.int 1))]] "cfg"
      = .ok (.node ⟨Value.ref 2⟩,
          [[("cfg", Value.ref 2)], [("cfg", Value.ref 2)],
           [("size", Value.prim (Prim.int 1))]]) ∧
    DataNode.setattr ⟨Value.ref 2⟩
      [[("cfg", Value.ref 2)], [("cfg", Value.ref 2)],
       [("size", Value.prim (Prim.int 1))]] "height" v100
      = .ok (⟨Value.ref 2⟩,
          [[("cfg", Value.ref 2)], [("cfg", Value.ref 2)],
           [("size", Value.prim (Prim.int 1)), ("height", v100)]]) ∧
    heapGet [[("cfg", Value.ref 2)], [("cfg", Value.ref 2)],
             [("size", Value.prim (Prim.int 1)), ("height", v100)]] 1
      = some [("cfg", Value.ref 2)] := by
  have h := claim_C10_default_materialization_aliases
    [[], [("cfg", Value.ref 2)], [("size", Value.prim (Prim.int 1))]]
    0 1 2 [] [("cfg", Value.ref 2)] [("size", Value.prim (Prim.int 1))] "cfg"
    rfl rfl rfl rfl rfl (by decide) (by decide) (by decide)
  have h2 := h.2.2.2 "height" v100 (by decide)
  exact ⟨h.1, h2.1, h2.2.1⟩

end PyData
